import Mathlib

/-!
# Verification of the FWR_BackEnd scoring core and utility functions

A shallow embedding of the quiz-scoring / readiness-update core of the
FWR_BackEnd repository, together with its pagination and JWT-token helper
functions, and proofs of the specified properties.

Conventions:
* Python `int` is embedded as `Int` (arbitrary precision); Python float
  arithmetic on scores is embedded as exact rational arithmetic (`ℚ`).
* Python `//` (floor division) is `Int.fdiv`.
* Fallible functions return `Except`/`Option`.
* Pydantic schema declarations become structures; where a claim speaks about
  which fields a schema declares, the declared field-name list is embedded
  as an explicit `List String`.
-/

namespace FWR

/-! ## Pagination (src/src/app/utils/schema.py) -/

/-- The `Pagination` response schema (src/src/app/utils/schema.py, lines 46-54). -/
structure Pagination where
  total_results : Int
  current_results_on_page : Int
  current_page : Int
  next_page : Option Int
  previous_page : Option Int
  total_pages : Int
deriving Repr, DecidableEq

/-- `create_pagination` (src/src/app/utils/schema.py, lines 108-132):
`total_pages = (total_results + page_size - 1) // page_size if page_size > 0 else 0`,
`current_results = max(0, min(page_size, total_results - (page - 1) * page_size))`,
`next_page = page + 1 if page < total_pages else None`,
`previous_page = page - 1 if page > 1 else None`. -/
def create_pagination (total_results page page_size : Int) : Pagination :=
  let total_pages : Int :=
    if page_size > 0 then (total_results + page_size - 1).fdiv page_size else 0
  let current_results : Int :=
    max 0 (min page_size (total_results - (page - 1) * page_size))
  { total_results := total_results
    current_results_on_page := current_results
    current_page := page
    next_page := if page < total_pages then some (page + 1) else none
    previous_page := if page > 1 then some (page - 1) else none
    total_pages := total_pages }

/-! ## JWT token helpers (src/src/app/utils/tokens.py)

The `jwt` and `ast` libraries are external collaborators; they are embedded
at their interface: a signed token carries its payload (`sub`, `exp`) and the
secret it was signed with, `jwt.decode` recovers the payload exactly when the
secrets match and the token is unexpired, and `ast.literal_eval` is an
arbitrary partial function from strings to Python literal values. -/

/-- A Python literal value, as produced by `ast.literal_eval`. -/
inductive PyValue where
  | str : String → PyValue
  | int : Int → PyValue
deriving DecidableEq, Repr

/-- Interface model of a signed JWT: the payload claims `sub` and `exp`
(seconds timestamp) plus the secret the token was signed with. -/
structure Jwt where
  sub : String
  exp : Nat
  secret : String
deriving DecidableEq, Repr

/-- The 401 errors raised by `decode_token` (tokens.py, lines 129-145). -/
inductive TokenError where
  | invalidToken
  | tokenExpired
deriving DecidableEq, Repr

/-- The settings fields used by tokens.py (`config.JWT_SECRET`,
`config.JWT_EXPIRES_IN` in minutes). -/
structure TokenConfig where
  JWT_SECRET : String
  JWT_EXPIRES_IN : Nat

/-- `create_token` (tokens.py, lines 45-65): signs `{"sub": str(sub), "exp":
now + (expires_delta or timedelta(minutes=default_expire_minutes))}` with
`secret`. `sub` is already a string, so `str(sub) = sub`; `now` and
`expires_delta` are in seconds. -/
def create_token (sub secret : String) (now : Nat) (expires_delta : Option Nat)
    (default_expire_minutes : Nat) : Jwt :=
  { sub := sub
    exp := now + expires_delta.getD (default_expire_minutes * 60)
    secret := secret }

/-- `create_access_token` (tokens.py, lines 68-84): `create_token` with
`config.JWT_SECRET` and `config.JWT_EXPIRES_IN`. -/
def create_access_token (cfg : TokenConfig) (now : Nat) (sub : String)
    (expires_delta : Option Nat) : Jwt :=
  create_token sub cfg.JWT_SECRET now expires_delta cfg.JWT_EXPIRES_IN

/-- `decode_token` (tokens.py, lines 129-145): `jwt.decode` verifies the
signature (modelled: the stored secret equals the supplied one) and the
expiry (`exp` must be in the future), raising 401 otherwise. -/
def decode_token (token : Jwt) (secret : String) (now : Nat) :
    Except TokenError Jwt :=
  if token.secret ≠ secret then .error .invalidToken
  else if token.exp ≤ now then .error .tokenExpired
  else .ok token

/-- `decode_access_token` (tokens.py, lines 148-163): decodes with
`config.JWT_SECRET`, then replaces `data["sub"]` with
`ast.literal_eval(data["sub"])` when that parse succeeds, keeping the raw
string when it raises `ValueError`/`SyntaxError`. The partial function
`literalEval` models `ast.literal_eval` (`none` = raises). -/
def decode_access_token (literalEval : String → Option PyValue)
    (cfg : TokenConfig) (token : Jwt) (now : Nat) :
    Except TokenError PyValue :=
  match decode_token token cfg.JWT_SECRET now with
  | .error e => .error e
  | .ok data =>
      match literalEval data.sub with
      | some v => .ok v
      | none => .ok (.str data.sub)

/-- `get_user_id_from_token` (tokens.py, lines 217-226): returns
`decode_access_token(token)["sub"]`. -/
def get_user_id_from_token (literalEval : String → Option PyValue)
    (cfg : TokenConfig) (token : Jwt) (now : Nat) :
    Except TokenError PyValue :=
  decode_access_token literalEval cfg token now

/-- Modelled from the spec: `ast.literal_eval` is Python-stdlib behaviour, not
repository code; this model covers the fragment the claims mention — a string
of decimal digits parses as the corresponding `int` literal and every other
string fails to parse. (A UUID string such as "a1b2-c3d4" contains `-` and
letters mixed with digits, so it fails.) -/
def literal_eval_digits (s : String) : Option PyValue :=
  if s.data ≠ [] ∧ s.data.all Char.isDigit then
    some (.int ((s.data.foldl (fun n c => n * 10 + (c.toNat - '0'.toNat)) 0 : Nat) : Int))
  else none

/-! ## Quiz loading (src/add_expanded_quizzes.py) -/

/-- One entry of a question's `options` array in the quizzes JSON file
(fields read at add_expanded_quizzes.py, lines 92-96). -/
structure OptionData where
  text : String
  is_correct : Bool
deriving DecidableEq, Repr

/-- One entry of a quiz's `questions` array in the quizzes JSON file
(fields read at add_expanded_quizzes.py, lines 78-92). -/
structure QuestionData where
  question_text : String
  question_type : String
  points : Int
  explanation : String
  options : List OptionData
deriving DecidableEq, Repr

/-- A `QuestionOption` row as inserted by `add_quizzes_to_database`
(add_expanded_quizzes.py, lines 92-99). -/
structure QuestionOptionRow where
  question_id : Nat
  option_text : String
  is_correct : Bool
  order_index : Nat
deriving DecidableEq, Repr

/-- A `Question` row as inserted by `add_quizzes_to_database`
(add_expanded_quizzes.py, lines 78-88). -/
structure QuestionRow where
  quiz_id : Nat
  question_text : String
  question_type : String
  points : Int
  order_index : Nat
  explanation : String
  is_active : Bool
deriving DecidableEq, Repr

/-- The inner option loop of `add_quizzes_to_database`
(add_expanded_quizzes.py, lines 92-99): for each `(opt_idx, option_data)` in
`enumerate(question_data['options'])` it inserts
`QuestionOption(question_id, option_text=option_data['text'],
is_correct=option_data['is_correct'], order_index=opt_idx)` — the
`is_correct` flag is copied verbatim, with no validation. -/
def insert_options (question_id : Nat) (options : List OptionData) :
    List QuestionOptionRow :=
  options.enum.map fun p =>
    { question_id := question_id
      option_text := p.2.text
      is_correct := p.2.is_correct
      order_index := p.1 }

/-- The question step of `add_quizzes_to_database`
(add_expanded_quizzes.py, lines 78-99): inserts the `Question` row with
`order_index = idx`, `is_active = True`, then its options. `question_id`
is the database-assigned id of the new row. -/
def insert_question (quiz_id idx question_id : Nat) (qd : QuestionData) :
    QuestionRow × List QuestionOptionRow :=
  ({ quiz_id := quiz_id
     question_text := qd.question_text
     question_type := qd.question_type
     points := qd.points
     order_index := idx
     explanation := qd.explanation
     is_active := true },
   insert_options question_id qd.options)

/-- Number of options of a stored question flagged `is_correct = true`. -/
def correct_option_count (rows : List QuestionOptionRow) : Nat :=
  (rows.filter fun r => r.is_correct).length

/-! ## Scoring engine (spec §4.1)

The scoring engine itself (`score_submission`, `apply_readiness_update`,
`sync_goals` and the submission flow around them) is absent from the
repository sources — only its request/response schemas
(src/src/app/modules/quizzes/schema.py, src/src/app/modules/goals/schema.py)
exist. The definitions below are therefore modelled from spec §4.1/§7, and
Python float arithmetic on scores is embedded as exact rational
arithmetic. -/

/-- A quiz question as the scoring engine sees it (spec §3): an id, a point
value and the identifier of its single designated correct option. -/
structure SpecQuestion where
  question_id : Nat
  points : Nat
  correct_answer : String
deriving DecidableEq, Repr

/-- A quiz as the scoring engine sees it (spec §3): ordered questions and a
passing score in `[0, 100]`. -/
structure SpecQuiz where
  questions : List SpecQuestion
  passing_score : ℚ
deriving DecidableEq, Repr

/-- One submitted answer (`QuizAnswer`,
src/src/app/modules/quizzes/schema.py lines 107-111). -/
structure QuizAnswer where
  question_id : Nat
  selected_answer : String
deriving DecidableEq, Repr

/-- The scoring fields of `QuizResultExtended`
(src/src/app/modules/quizzes/schema.py lines 191-202), plus the ordered
per-question result list `(question_id, is_correct, earned_points)`. -/
structure QuizResult where
  raw_score : Nat
  max_score : Nat
  normalized_score : ℚ
  passed : Bool
  question_results : List (Nat × Bool × Nat)
deriving DecidableEq, Repr

/-- The submitted answer for a question id, if any: unknown question ids in
the submission are never consulted, and quiz questions absent from the
submission get `none` (spec §4.1 input constraints). -/
def lookup_answer (answers : List QuizAnswer) (question_id : Nat) :
    Option String :=
  (answers.find? fun a => a.question_id == question_id).map
    fun a => a.selected_answer

/-- Modelled from the spec: points earned on one question (§4.1
`score_submission` algorithm) — `question.points` on exact match with the
designated correct option, else `0`; a question with no submitted answer
scores `0`, never an error. -/
def earned_points (answers : List QuizAnswer) (q : SpecQuestion) : Nat :=
  match lookup_answer answers q.question_id with
  | some a => if a = q.correct_answer then q.points else 0
  | none => 0

/-- Modelled from the spec: `score_submission(quiz, submission)` (§4.1) —
absent from src/. Evaluates the questions in their defined order, sums
earned points into `raw_score` and all points into `max_score`, sets
`normalized_score = 100 * raw_score / max_score` (`0` when `max_score == 0`),
and `passed = normalized_score >= quiz.passing_score`. Pure. -/
def score_submission (quiz : SpecQuiz) (answers : List QuizAnswer) :
    QuizResult :=
  let raw : Nat := (quiz.questions.map (earned_points answers)).sum
  let maxs : Nat := (quiz.questions.map fun q => q.points).sum
  let normalized : ℚ := if maxs = 0 then 0 else 100 * (raw : ℚ) / (maxs : ℚ)
  { raw_score := raw
    max_score := maxs
    normalized_score := normalized
    passed := decide (quiz.passing_score ≤ normalized)
    question_results := quiz.questions.map fun q =>
      (q.question_id, decide (earned_points answers q = q.points ∧ q.points ≠ 0),
        earned_points answers q) }

/-- The three readiness sub-dimensions a quiz category can map to
(spec §4.1 `apply_readiness_update`). -/
inductive Category where
  | technical
  | soft_skills
  | leadership
deriving DecidableEq, Repr

/-- The string name of a category, as compared against `Goal.category`
(src/src/app/modules/goals/schema.py line 21). -/
def Category.name : Category → String
  | .technical => "technical"
  | .soft_skills => "soft_skills"
  | .leadership => "leadership"

/-- `ReadinessScores` (src/src/app/modules/users/schema.py lines 173-179):
overall, technical, soft_skills, leadership. -/
structure ReadinessScores where
  overall : ℚ
  technical : ℚ
  soft_skills : ℚ
  leadership : ℚ
deriving DecidableEq, Repr

/-- The value of one sub-dimension. -/
def ReadinessScores.dim (s : ReadinessScores) : Category → ℚ
  | .technical => s.technical
  | .soft_skills => s.soft_skills
  | .leadership => s.leadership

/-- `ScoreImpact` (src/src/app/modules/quizzes/schema.py lines 171-177):
category, old_score, new_score, increase = new - old. -/
structure ScoreImpact where
  category : Category
  old_score : ℚ
  new_score : ℚ
  increase : ℚ
deriving DecidableEq, Repr

/-- Clamp a score to `[0, 100]`. -/
def clamp_score (x : ℚ) : ℚ := max 0 (min 100 x)

/-- Modelled from the spec: `apply_readiness_update(user_scores, quiz,
result)` (§4.1) — absent from src/. The affected dimension moves to the
convex combination `(1 - w) * old + w * normalized_score` clamped to
`[0, 100]` (`w` is the tunable damping weight of §9, kept as a parameter),
and `overall` is recomputed as the fixed equal-weight combination of the
three sub-dimensions. Returns the new scores and the `ScoreImpact`. -/
def apply_readiness_update (w : ℚ) (scores : ReadinessScores) (cat : Category)
    (result : QuizResult) : ReadinessScores × ScoreImpact :=
  let old := scores.dim cat
  let new_value := clamp_score ((1 - w) * old + w * result.normalized_score)
  let updated :=
    match cat with
    | .technical => { scores with technical := new_value }
    | .soft_skills => { scores with soft_skills := new_value }
    | .leadership => { scores with leadership := new_value }
  let final := { updated with
    overall := (updated.technical + updated.soft_skills + updated.leadership) / 3 }
  (final,
   { category := cat
     old_score := old
     new_score := new_value
     increase := new_value - old })

/-- A `Goal` (src/src/app/modules/goals/schema.py lines 32-43): a free-form
string category (a category naming no readiness dimension is simply never
matched — spec §7 `InvalidCategory` is a skip, not a failure), a target, a
current value and a completion flag. -/
structure Goal where
  goal_id : Nat
  category : String
  target_value : ℚ
  current_value : ℚ
  is_completed : Bool
deriving DecidableEq, Repr

/-- Modelled from the spec: the per-goal step of `sync_goals` (§4.1) —
absent from src/. A goal whose `category` equals the impact's category gets
`current_value = score_impact.new_score` and becomes completed when
`current_value >= target_value`, monotonically (once completed it stays
completed even when the new score is below the target); any other goal is
returned unchanged. -/
def sync_goal (impact : ScoreImpact) (g : Goal) : Goal :=
  if g.category = impact.category.name then
    { g with
      current_value := impact.new_score
      is_completed := g.is_completed || decide (g.target_value ≤ impact.new_score) }
  else g

/-- Modelled from the spec: `sync_goals(goals, score_impact)` (§4.1) —
absent from src/. First component: all goals after the sync (goals of other
categories pass through untouched); second component: the updated set, i.e.
only the goals whose category matches the impact's. -/
def sync_goals (goals : List Goal) (impact : ScoreImpact) :
    List Goal × List Goal :=
  let all := goals.map (sync_goal impact)
  (all, all.filter fun g => g.category = impact.category.name)

/-- `QuizAttempt` (src/src/app/modules/quizzes/schema.py lines 132-142):
started_at/completed_at timestamps, optional score, completion flag. -/
structure QuizAttempt where
  attempt_id : Nat
  user_id : Nat
  quiz_id : Nat
  started_at : Nat
  completed_at : Option Nat
  score : Option ℚ
  is_completed : Bool
deriving DecidableEq, Repr

/-- The submission-flow errors (spec §7). -/
inductive SubmitError where
  | UnknownQuiz
  | AlreadyCompleted
deriving DecidableEq, Repr

/-- Modelled from the spec: the submit flow around the engine (§5, §7) —
absent from src/. A submission against an already-completed attempt is
rejected with the `AlreadyCompleted` conflict before any scoring or
readiness mutation; otherwise the attempt is finalized exactly once and the
readiness update is applied. -/
def submit_attempt (w : ℚ) (attempt : QuizAttempt) (scores : ReadinessScores)
    (quiz : SpecQuiz) (cat : Category) (answers : List QuizAnswer) (now : Nat) :
    Except SubmitError (QuizAttempt × ReadinessScores × QuizResult × ScoreImpact) :=
  if attempt.is_completed then .error .AlreadyCompleted
  else
    let result := score_submission quiz answers
    let updated := apply_readiness_update w scores cat result
    .ok ({ attempt with
            is_completed := true
            completed_at := some now
            score := some result.normalized_score },
         updated.1, result, updated.2)

/-- The user's readiness scores after a submission: the engine's output on
success, the untouched input scores on rejection. -/
def scores_after (scores : ReadinessScores)
    (r : Except SubmitError (QuizAttempt × ReadinessScores × QuizResult × ScoreImpact)) :
    ReadinessScores :=
  match r with
  | .ok out => out.2.1
  | .error _ => scores

/-- `ReadinessSnapshot` (src/src/app/modules/quizzes/schema.py lines
154-159): the readiness value embedded in `QuizSubmitResponse` and
`AttemptResultResponse` — it declares exactly the three fields `overall`,
`technical` and `soft`. -/
structure ReadinessSnapshot where
  overall : ℚ
  technical : ℚ
  soft : ℚ
deriving DecidableEq, Repr

/-- The field names `ReadinessSnapshot` declares, in declaration order
(src/src/app/modules/quizzes/schema.py lines 154-159). -/
def readinessSnapshotFieldNames : List String := ["overall", "technical", "soft"]

/-- The field names `ReadinessScores` declares, in declaration order
(src/src/app/modules/users/schema.py lines 173-179). -/
def readinessScoresFieldNames : List String :=
  ["overall", "technical", "soft_skills", "leadership"]

/-- Modelled from the spec: how a response's `ReadinessSnapshot` is filled
from the user's readiness scores after an update — absent from src/. The
snapshot schema only has `overall`, `technical` and `soft`, so `soft` takes
the soft-skills value and the leadership value has no field to go to. -/
def to_snapshot (s : ReadinessScores) : ReadinessSnapshot :=
  { overall := s.overall, technical := s.technical, soft := s.soft_skills }

/-- The three engine-maintained sub-dimensions are within `[0, 100]`. -/
def sub_dims_in_range (s : ReadinessScores) : Prop :=
  (0 ≤ s.technical ∧ s.technical ≤ 100) ∧
  (0 ≤ s.soft_skills ∧ s.soft_skills ≤ 100) ∧
  (0 ≤ s.leadership ∧ s.leadership ≤ 100)

instance (s : ReadinessScores) : Decidable (sub_dims_in_range s) := by
  unfold sub_dims_in_range
  infer_instance

/-! ## Theorems

Pagination and ceiling division, the token round trip, the quiz loader's
handling of `is_correct`, and the scoring-engine properties. -/

/-- For `0 ≤ t` and `1 ≤ s`, the Python expression `(t + s - 1) // s`
computes the ceiling of `t / s`. -/
lemma fdiv_add_sub_one_eq_ceil (t s : Int) (hs : 1 ≤ s) :
    (t + s - 1).fdiv s = ⌈(t : ℚ) / (s : ℚ)⌉ := by
  have hs0 : (0 : Int) < s := by omega
  have hsne : s ≠ 0 := by omega
  rw [Int.fdiv_eq_ediv _ (by omega : (0:Int) ≤ s)]
  have hmod := Int.ediv_add_emod (t + s - 1) s
  have hr0 : 0 ≤ (t + s - 1) % s := Int.emod_nonneg _ hsne
  have hrs : (t + s - 1) % s < s := Int.emod_lt_of_pos _ hs0
  have h1 : t ≤ s * ((t + s - 1) / s) := by linarith
  have h2 : s * ((t + s - 1) / s) < t + s := by linarith
  have hsq : (0 : ℚ) < (s : ℚ) := by exact_mod_cast hs0
  symm
  rw [Int.ceil_eq_iff]
  constructor
  · rw [lt_div_iff₀ hsq]
    have h2' : ((s : ℚ)) * (((t + s - 1) / s : Int) : ℚ) < (t : ℚ) + (s : ℚ) := by
      exact_mod_cast h2
    nlinarith [h2']
  · rw [div_le_iff₀ hsq]
    have h1' : (t : ℚ) ≤ ((s : ℚ)) * (((t + s - 1) / s : Int) : ℚ) := by
      exact_mod_cast h1
    nlinarith [h1']

/-- C10: for `total_results ≥ 0`, `page ≥ 1`, `page_size ≥ 1`, `create_pagination`
returns `total_pages = ⌈total_results / page_size⌉`, a `current_results_on_page`
in `[0, page_size]`, `next_page = page + 1` exactly when `page < total_pages`
(`None` otherwise), `previous_page = page - 1` exactly when `page > 1`
(`None` otherwise); and for `page_size ≤ 0` it returns `total_pages = 0`
without dividing by zero. -/
theorem create_pagination_correct (t p s : Int) (ht : 0 ≤ t) (hp : 1 ≤ p) (hs : 1 ≤ s) :
    (create_pagination t p s).total_pages = ⌈(t : ℚ) / (s : ℚ)⌉ ∧
    (0 ≤ (create_pagination t p s).current_results_on_page ∧
      (create_pagination t p s).current_results_on_page ≤ s) ∧
    ((create_pagination t p s).next_page = some (p + 1) ↔
      p < (create_pagination t p s).total_pages) ∧
    ((create_pagination t p s).next_page = none ↔
      ¬ p < (create_pagination t p s).total_pages) ∧
    ((create_pagination t p s).previous_page = some (p - 1) ↔ 1 < p) ∧
    ((create_pagination t p s).previous_page = none ↔ ¬ 1 < p) ∧
    (∀ t2 p2 s2 : Int, s2 ≤ 0 → (create_pagination t2 p2 s2).total_pages = 0) := by
  have hsp : s > 0 := by omega
  simp only [create_pagination, if_pos hsp]
  refine ⟨fdiv_add_sub_one_eq_ceil t s hs, ⟨le_max_left _ _, ?_⟩, ?_, ?_, ?_, ?_, ?_⟩
  · exact max_le (by omega) (min_le_left _ _)
  · split <;> simp_all
  · split <;> simp_all
  · split <;> simp_all
  · split <;> simp_all
  · intro t2 p2 s2 hs2
    simp only [create_pagination, if_neg (by omega : ¬ s2 > 0)]

/-- Witness for C10 at `total_results = 5`, `page = 1`, `page_size = 2`. -/
theorem create_pagination_correct_witness :
    (create_pagination 5 1 2).total_pages = ⌈(5 : ℚ) / (2 : ℚ)⌉ ∧
    (0 ≤ (create_pagination 5 1 2).current_results_on_page ∧
      (create_pagination 5 1 2).current_results_on_page ≤ 2) ∧
    ((create_pagination 5 1 2).next_page = some (1 + 1) ↔
      1 < (create_pagination 5 1 2).total_pages) ∧
    ((create_pagination 5 1 2).next_page = none ↔
      ¬ (1:Int) < (create_pagination 5 1 2).total_pages) ∧
    ((create_pagination 5 1 2).previous_page = some (1 - 1) ↔ (1:Int) < 1) ∧
    ((create_pagination 5 1 2).previous_page = none ↔ ¬ (1:Int) < 1) ∧
    (∀ t2 p2 s2 : Int, s2 ≤ 0 → (create_pagination t2 p2 s2).total_pages = 0) :=
  create_pagination_correct 5 1 2 (by norm_num) (by norm_num) (by norm_num)

/-- C9: whenever `ast.literal_eval` cannot parse the subject `sub` (e.g. a
UUID string) and the token is unexpired, `get_user_id_from_token`
round-trips `create_access_token sub` to exactly `sub`; and without that
precondition the round trip can return the parsed literal instead — for the
subject "123" (under the digit-literal model of `literal_eval`) it returns
the int `123`, not the string "123". -/
theorem get_user_id_round_trip (literalEval : String → Option PyValue)
    (cfg : TokenConfig) (sub : String) (now now2 : Nat) (delta : Option Nat)
    (hle : literalEval sub = none)
    (hexp : now2 < (create_access_token cfg now sub delta).exp) :
    get_user_id_from_token literalEval cfg (create_access_token cfg now sub delta) now2
      = .ok (.str sub) ∧
    (∀ cfg2 : TokenConfig,
      get_user_id_from_token literal_eval_digits cfg2
          (create_access_token cfg2 0 "123" (some 60)) 0
        = .ok (.int 123)) := by
  have hexp2 : ¬ (now + delta.getD (cfg.JWT_EXPIRES_IN * 60) ≤ now2) := by
    have := hexp
    simp only [create_access_token, create_token] at this
    omega
  constructor
  · simp [get_user_id_from_token, decode_access_token, decode_token,
      create_access_token, create_token, hexp2, hle]
  · intro cfg2
    simp [get_user_id_from_token, decode_access_token, decode_token,
      create_access_token, create_token, literal_eval_digits]

/-- Witness for C9: the round trip at the unparsable subject "user-1", with
the digit-literal model of `ast.literal_eval`, an unexpired token and a
concrete config. -/
theorem get_user_id_round_trip_witness :
    get_user_id_from_token literal_eval_digits ⟨"s", 60⟩
        (create_access_token ⟨"s", 60⟩ 0 "user-1" none) 10
      = .ok (.str "user-1") ∧
    (∀ cfg2 : TokenConfig,
      get_user_id_from_token literal_eval_digits cfg2
          (create_access_token cfg2 0 "123" (some 60)) 0
        = .ok (.int 123)) :=
  get_user_id_round_trip literal_eval_digits ⟨"s", 60⟩ "user-1" 0 10 none
    (by decide) (by decide)

/-- C8 counterexample: a question whose JSON carries two options flagged
`is_correct = true` is inserted by `add_quizzes_to_database` with two correct
options — the loader does not enforce the exactly-one-correct invariant. -/
theorem insert_question_two_correct :
    correct_option_count
      (insert_question 1 0 7
        { question_text := "Q1"
          question_type := "multiple_choice"
          points := 10
          explanation := ""
          options := [{ text := "A", is_correct := true },
                      { text := "B", is_correct := true }] }).2 = 2 := by
  decide

lemma insert_options_count_enumFrom (question_id : Nat) :
    ∀ (opts : List OptionData) (n : Nat),
      ((((opts.enumFrom n).map fun p =>
          ({ question_id := question_id
             option_text := p.2.text
             is_correct := p.2.is_correct
             order_index := p.1 } : QuestionOptionRow)).filter
        fun r => r.is_correct).length)
        = (opts.filter fun o => o.is_correct).length
  | [], _ => rfl
  | o :: rest, n => by
    by_cases h : o.is_correct <;>
      simp [List.enumFrom, List.filter, h,
        insert_options_count_enumFrom question_id rest (n + 1)]

lemma insert_options_flags_enumFrom (question_id : Nat) :
    ∀ (opts : List OptionData) (n : Nat),
      (((opts.enumFrom n).map fun p =>
          ({ question_id := question_id
             option_text := p.2.text
             is_correct := p.2.is_correct
             order_index := p.1 } : QuestionOptionRow)).map
        fun r => r.is_correct)
        = opts.map fun o => o.is_correct
  | [], _ => rfl
  | o :: rest, n => by
    simp [List.enumFrom, insert_options_flags_enumFrom question_id rest (n + 1)]

/-- C8 (amended): the quiz-loading operation copies each option's
`is_correct` flag verbatim from the input JSON, so a stored question has
exactly one correct option if and only if exactly one of its JSON options
has `is_correct = true`; the loader itself enforces nothing. -/
theorem insert_question_correct_count (quiz_id idx question_id : Nat)
    (qd : QuestionData) :
    correct_option_count (insert_question quiz_id idx question_id qd).2
        = (qd.options.filter fun o => o.is_correct).length ∧
    (((insert_question quiz_id idx question_id qd).2.map fun r => r.is_correct)
        = qd.options.map fun o => o.is_correct) ∧
    (correct_option_count (insert_question quiz_id idx question_id qd).2 = 1 ↔
      (qd.options.filter fun o => o.is_correct).length = 1) := by
  have hc := insert_options_count_enumFrom question_id qd.options 0
  have hf := insert_options_flags_enumFrom question_id qd.options 0
  exact ⟨hc, hf, by rw [show correct_option_count (insert_question quiz_id idx
    question_id qd).2 = _ from hc]⟩

lemma earned_points_le (answers : List QuizAnswer) (q : SpecQuestion) :
    earned_points answers q ≤ q.points := by
  cases h : lookup_answer answers q.question_id with
  | none => simp [earned_points, h]
  | some a =>
    simp only [earned_points, h]
    split <;> simp

lemma raw_le_max_sum (quiz : SpecQuiz) (answers : List QuizAnswer) :
    (quiz.questions.map (earned_points answers)).sum ≤
      (quiz.questions.map fun q => q.points).sum :=
  List.sum_le_sum fun q _ => earned_points_le answers q

/-- C1: `score_submission` computes
`normalized_score = 100 * raw_score / max_score`, defined as `0` when
`max_score = 0` (it never divides by zero), and the result always lies in
`[0, 100]`. -/
theorem score_submission_normalized (quiz : SpecQuiz) (answers : List QuizAnswer) :
    (score_submission quiz answers).normalized_score =
      (if (score_submission quiz answers).max_score = 0 then 0
       else 100 * ((score_submission quiz answers).raw_score : ℚ) /
         ((score_submission quiz answers).max_score : ℚ)) ∧
    0 ≤ (score_submission quiz answers).normalized_score ∧
    (score_submission quiz answers).normalized_score ≤ 100 := by
  have hsum := raw_le_max_sum quiz answers
  simp only [score_submission]
  refine ⟨trivial, ?_, ?_⟩
  · split
    · exact le_refl 0
    · positivity
  · split
    · norm_num
    · rename_i h
      have hpos : (0 : ℚ) < (((quiz.questions.map fun q => q.points).sum : ℕ) : ℚ) :=
        Nat.cast_pos.mpr (Nat.pos_of_ne_zero h)
      have hc : (((quiz.questions.map (earned_points answers)).sum : Nat) : ℚ) ≤
          (((quiz.questions.map fun q => q.points).sum : Nat) : ℚ) :=
        Nat.cast_le.mpr hsum
      rw [div_le_iff₀ hpos]
      nlinarith

/-- C4: for every quiz, `score_submission` on the empty answer list yields
`raw_score = 0` and `passed = (quiz.passing_score <= 0)`. -/
theorem score_submission_empty (quiz : SpecQuiz) :
    (score_submission quiz []).raw_score = 0 ∧
    ((score_submission quiz []).passed = true ↔ quiz.passing_score ≤ 0) := by
  have hz : ∀ x ∈ quiz.questions.map (earned_points []), x = 0 := by
    intro x hx
    obtain ⟨q, _, rfl⟩ := List.mem_map.1 hx
    rfl
  have hraw : (quiz.questions.map (earned_points [])).sum = 0 :=
    List.sum_eq_zero hz
  constructor
  · simpa [score_submission] using hraw
  · simp only [score_submission, hraw]
    by_cases h : (quiz.questions.map fun q => q.points).sum = 0 <;>
      simp [h, decide_eq_true_iff]

lemma clamp_score_nonneg (x : ℚ) : 0 ≤ clamp_score x := le_max_left 0 _

lemma clamp_score_le (x : ℚ) : clamp_score x ≤ 100 :=
  max_le (by norm_num) (min_le_left 100 x)

/-- C3: under a damping weight `w ∈ [0, 1]`, the affected dimension's new
value returned by `apply_readiness_update` is the convex combination
`(1 - w) * old_value + w * normalized_score` clamped to `[0, 100]`; it is
stored in the affected dimension of the returned scores and always lies in
`[0, 100]`. -/
theorem apply_readiness_update_convex (w : ℚ) (scores : ReadinessScores)
    (cat : Category) (result : QuizResult) (hw0 : 0 ≤ w) (hw1 : w ≤ 1) :
    (apply_readiness_update w scores cat result).2.new_score =
      clamp_score ((1 - w) * scores.dim cat + w * result.normalized_score) ∧
    (apply_readiness_update w scores cat result).2.old_score = scores.dim cat ∧
    ((apply_readiness_update w scores cat result).1).dim cat =
      (apply_readiness_update w scores cat result).2.new_score ∧
    0 ≤ (apply_readiness_update w scores cat result).2.new_score ∧
    (apply_readiness_update w scores cat result).2.new_score ≤ 100 := by
  refine ⟨rfl, rfl, ?_, clamp_score_nonneg _, clamp_score_le _⟩
  cases cat <;> rfl

/-- Witness for C3 at `w = 1`, concrete scores and a concrete result. -/
theorem apply_readiness_update_convex_witness :
    (apply_readiness_update 1 ⟨50, 50, 50, 50⟩ .technical
        ⟨10, 20, 50, true, []⟩).2.new_score =
      clamp_score ((1 - 1) * (⟨50, 50, 50, 50⟩ : ReadinessScores).dim .technical
        + 1 * (⟨10, 20, 50, true, []⟩ : QuizResult).normalized_score) ∧
    (apply_readiness_update 1 ⟨50, 50, 50, 50⟩ .technical
        ⟨10, 20, 50, true, []⟩).2.old_score =
      (⟨50, 50, 50, 50⟩ : ReadinessScores).dim .technical ∧
    ((apply_readiness_update 1 ⟨50, 50, 50, 50⟩ .technical
        ⟨10, 20, 50, true, []⟩).1).dim .technical =
      (apply_readiness_update 1 ⟨50, 50, 50, 50⟩ .technical
        ⟨10, 20, 50, true, []⟩).2.new_score ∧
    0 ≤ (apply_readiness_update 1 ⟨50, 50, 50, 50⟩ .technical
        ⟨10, 20, 50, true, []⟩).2.new_score ∧
    (apply_readiness_update 1 ⟨50, 50, 50, 50⟩ .technical
        ⟨10, 20, 50, true, []⟩).2.new_score ≤ 100 :=
  apply_readiness_update_convex 1 ⟨50, 50, 50, 50⟩ .technical
    ⟨10, 20, 50, true, []⟩ (by decide) (by decide)

/-- C2 counterexample: the readiness value in quiz submission and
attempt-result responses is a `ReadinessSnapshot`, whose declared fields are
exactly `overall`, `technical`, `soft` — it has no `leadership` (nor
`soft_skills`) dimension, so the snapshot does not contain the four claimed
dimensions. -/
theorem readiness_snapshot_missing_dimensions :
    ¬ ("overall" ∈ readinessSnapshotFieldNames ∧
       "technical" ∈ readinessSnapshotFieldNames ∧
       "soft_skills" ∈ readinessSnapshotFieldNames ∧
       "leadership" ∈ readinessSnapshotFieldNames) := by
  decide

/-- C2 (amended): the readiness snapshot reported after a completed attempt
declares exactly the three dimensions `overall`, `technical`, `soft` (not
four), and — provided the damping weight is in `[0, 1]` and the stored
sub-dimension scores were in range — each reported dimension value lies in
`[0, 100]`. -/
theorem readiness_snapshot_in_range (w : ℚ) (attempt : QuizAttempt)
    (scores : ReadinessScores) (quiz : SpecQuiz) (cat : Category)
    (answers : List QuizAnswer) (now : Nat)
    (hs : sub_dims_in_range scores)
    (a2 : QuizAttempt) (s2 : ReadinessScores) (r2 : QuizResult)
    (i2 : ScoreImpact)
    (hok : submit_attempt w attempt scores quiz cat answers now
      = .ok (a2, s2, r2, i2)) :
    readinessSnapshotFieldNames = ["overall", "technical", "soft"] ∧
    (0 ≤ (to_snapshot s2).overall ∧ (to_snapshot s2).overall ≤ 100) ∧
    (0 ≤ (to_snapshot s2).technical ∧ (to_snapshot s2).technical ≤ 100) ∧
    (0 ≤ (to_snapshot s2).soft ∧ (to_snapshot s2).soft ≤ 100) := by
  obtain ⟨⟨ht0, ht1⟩, ⟨hs0, hs1⟩, ⟨hl0, hl1⟩⟩ := hs
  cases hc : attempt.is_completed with
  | true => simp [submit_attempt, hc] at hok
  | false =>
    simp only [submit_attempt, hc, Bool.false_eq_true, if_false,
      Except.ok.injEq, Prod.mk.injEq] at hok
    obtain ⟨-, hs2, -, -⟩ := hok
    subst hs2
    have hn0 := clamp_score_nonneg ((1 - w) * scores.dim cat
      + w * (score_submission quiz answers).normalized_score)
    have hn1 := clamp_score_le ((1 - w) * scores.dim cat
      + w * (score_submission quiz answers).normalized_score)
    refine ⟨rfl, ?_⟩
    cases cat <;>
      simp only [apply_readiness_update, ReadinessScores.dim, to_snapshot]
        at hn0 hn1 ⊢ <;>
      exact ⟨⟨by linarith, by linarith⟩, ⟨by linarith, by linarith⟩,
        ⟨by linarith, by linarith⟩⟩

/-- Witness for C2's amended theorem at concrete inputs: weight `1`, a fresh
attempt, mid-range scores and an empty submission. -/
theorem readiness_snapshot_in_range_witness :
    readinessSnapshotFieldNames = ["overall", "technical", "soft"] ∧
    (0 ≤ (to_snapshot (scores_after ⟨50, 50, 50, 50⟩
        (submit_attempt 1 ⟨1, 1, 1, 0, none, none, false⟩ ⟨50, 50, 50, 50⟩
          ⟨[], 50⟩ .technical [] 5))).overall ∧
      (to_snapshot (scores_after ⟨50, 50, 50, 50⟩
        (submit_attempt 1 ⟨1, 1, 1, 0, none, none, false⟩ ⟨50, 50, 50, 50⟩
          ⟨[], 50⟩ .technical [] 5))).overall ≤ 100) ∧
    (0 ≤ (to_snapshot (scores_after ⟨50, 50, 50, 50⟩
        (submit_attempt 1 ⟨1, 1, 1, 0, none, none, false⟩ ⟨50, 50, 50, 50⟩
          ⟨[], 50⟩ .technical [] 5))).technical ∧
      (to_snapshot (scores_after ⟨50, 50, 50, 50⟩
        (submit_attempt 1 ⟨1, 1, 1, 0, none, none, false⟩ ⟨50, 50, 50, 50⟩
          ⟨[], 50⟩ .technical [] 5))).technical ≤ 100) ∧
    (0 ≤ (to_snapshot (scores_after ⟨50, 50, 50, 50⟩
        (submit_attempt 1 ⟨1, 1, 1, 0, none, none, false⟩ ⟨50, 50, 50, 50⟩
          ⟨[], 50⟩ .technical [] 5))).soft ∧
      (to_snapshot (scores_after ⟨50, 50, 50, 50⟩
        (submit_attempt 1 ⟨1, 1, 1, 0, none, none, false⟩ ⟨50, 50, 50, 50⟩
          ⟨[], 50⟩ .technical [] 5))).soft ≤ 100) :=
  readiness_snapshot_in_range 1 ⟨1, 1, 1, 0, none, none, false⟩ ⟨50, 50, 50, 50⟩
    ⟨[], 50⟩ .technical [] 5 (by decide) _ _ _ _ rfl

lemma sync_goal_category (impact : ScoreImpact) (g : Goal) :
    (sync_goal impact g).category = g.category := by
  unfold sync_goal
  split <;> rfl

/-- C5: `sync_goals` updates exactly the goals whose category equals the
impact's category — each such goal gets `current_value = new_score` and
becomes completed when `current_value >= target_value`, and lands in the
returned updated set — while every goal of a different category passes
through unchanged and is absent from the updated set (whose members all
carry the impact's category). -/
theorem sync_goals_exact (goals : List Goal) (impact : ScoreImpact) :
    (sync_goals goals impact).1 = goals.map (sync_goal impact) ∧
    (∀ g, g ∈ goals → g.category ≠ impact.category.name →
      sync_goal impact g = g ∧ g ∉ (sync_goals goals impact).2) ∧
    (∀ g, g ∈ goals → g.category = impact.category.name →
      (sync_goal impact g).current_value = impact.new_score ∧
      (g.target_value ≤ impact.new_score →
        (sync_goal impact g).is_completed = true) ∧
      sync_goal impact g ∈ (sync_goals goals impact).2) ∧
    (∀ g2, g2 ∈ (sync_goals goals impact).2 →
      g2.category = impact.category.name) := by
  refine ⟨rfl, ?_, ?_, ?_⟩
  · intro g _ hne
    constructor
    · simp [sync_goal, hne]
    · intro hmem
      exact hne (by simpa using List.of_mem_filter hmem)
  · intro g hg heq
    refine ⟨by simp [sync_goal, heq], fun hle => by simp [sync_goal, heq, hle], ?_⟩
    refine List.mem_filter.2 ⟨List.mem_map.2 ⟨g, hg, rfl⟩, ?_⟩
    simp [sync_goal_category, heq]
  · intro g2 hg2
    simpa using List.of_mem_filter hg2

/-- Witness for C5: a matching and a non-matching goal under a concrete
impact. -/
theorem sync_goals_exact_witness :
    (sync_goal ⟨.technical, 70, 85, 15⟩ ⟨2, "leadership", 80, 70, false⟩ =
        ⟨2, "leadership", 80, 70, false⟩ ∧
      (⟨2, "leadership", 80, 70, false⟩ : Goal) ∉
        (sync_goals [⟨1, "technical", 80, 70, false⟩,
          ⟨2, "leadership", 80, 70, false⟩] ⟨.technical, 70, 85, 15⟩).2) ∧
    ((sync_goal ⟨.technical, 70, 85, 15⟩
        ⟨1, "technical", 80, 70, false⟩).current_value = 85 ∧
      (sync_goal ⟨.technical, 70, 85, 15⟩
        ⟨1, "technical", 80, 70, false⟩).is_completed = true) :=
  ⟨(sync_goals_exact [⟨1, "technical", 80, 70, false⟩,
      ⟨2, "leadership", 80, 70, false⟩] ⟨.technical, 70, 85, 15⟩).2.1
    ⟨2, "leadership", 80, 70, false⟩ (by simp) (by simp [Category.name]),
   ((sync_goals_exact [⟨1, "technical", 80, 70, false⟩,
      ⟨2, "leadership", 80, 70, false⟩] ⟨.technical, 70, 85, 15⟩).2.2.1
    ⟨1, "technical", 80, 70, false⟩ (by simp) (by simp [Category.name])).1,
   ((sync_goals_exact [⟨1, "technical", 80, 70, false⟩,
      ⟨2, "leadership", 80, 70, false⟩] ⟨.technical, 70, 85, 15⟩).2.2.1
    ⟨1, "technical", 80, 70, false⟩ (by simp) (by simp [Category.name])).2.1
    (by decide)⟩

/-- C6: goal completion is monotonic — a goal that is completed stays
completed after any `sync_goals` call, however low the impact's
`new_score`. -/
theorem sync_goals_monotonic (goals : List Goal) (impact : ScoreImpact)
    (k : Nat) (hk : k < goals.length)
    (hc : (goals.get ⟨k, hk⟩).is_completed = true) :
    ∃ hk2 : k < (sync_goals goals impact).1.length,
      ((sync_goals goals impact).1.get ⟨k, hk2⟩).is_completed = true := by
  have hlen : (sync_goals goals impact).1.length = goals.length := by
    simp [sync_goals]
  refine ⟨by omega, ?_⟩
  have hget : (sync_goals goals impact).1.get ⟨k, by omega⟩ =
      sync_goal impact (goals.get ⟨k, hk⟩) := by
    simp [sync_goals]
  rw [hget]
  unfold sync_goal
  split
  · have hc2 : goals[k].is_completed = true := by simpa using hc
    simp [hc2]
  · exact hc

/-- Witness for C6: a completed goal stays completed when the score
regresses below its target. -/
theorem sync_goals_monotonic_witness :
    ∃ hk2 : 0 < (sync_goals [⟨1, "technical", 80, 90, true⟩]
        ⟨.technical, 90, 10, -80⟩).1.length,
      ((sync_goals [⟨1, "technical", 80, 90, true⟩]
        ⟨.technical, 90, 10, -80⟩).1.get ⟨0, hk2⟩).is_completed = true :=
  sync_goals_monotonic [⟨1, "technical", 80, 90, true⟩]
    ⟨.technical, 90, 10, -80⟩ 0 (by decide) (by decide)

/-- C7: submitting an already-completed attempt is rejected with the
`AlreadyCompleted` conflict and leaves the readiness scores untouched; and
a successful submission finalizes the attempt, so replaying it is rejected —
the readiness update is applied at most once per completed attempt. -/
theorem submit_attempt_already_completed (w : ℚ) (attempt : QuizAttempt)
    (scores : ReadinessScores) (quiz : SpecQuiz) (cat : Category)
    (answers : List QuizAnswer) (now : Nat) :
    (attempt.is_completed = true →
      submit_attempt w attempt scores quiz cat answers now
          = .error .AlreadyCompleted ∧
      scores_after scores (submit_attempt w attempt scores quiz cat answers now)
          = scores) ∧
    (∀ (w2 : ℚ) (a2 : QuizAttempt) (s2 : ReadinessScores) (r2 : QuizResult)
        (i2 : ScoreImpact) (scr2 : ReadinessScores) (ans2 : List QuizAnswer)
        (now2 : Nat),
      submit_attempt w attempt scores quiz cat answers now
          = .ok (a2, s2, r2, i2) →
      submit_attempt w2 a2 scr2 quiz cat ans2 now2
          = .error .AlreadyCompleted ∧
      scores_after scr2 (submit_attempt w2 a2 scr2 quiz cat ans2 now2)
          = scr2) := by
  constructor
  · intro h
    constructor <;> simp [submit_attempt, scores_after, h]
  · intro w2 a2 s2 r2 i2 scr2 ans2 now2 hok
    cases hc : attempt.is_completed with
    | true => simp [submit_attempt, hc] at hok
    | false =>
      simp only [submit_attempt, hc, Bool.false_eq_true, if_false,
        Except.ok.injEq, Prod.mk.injEq] at hok
      obtain ⟨ha2, -, -, -⟩ := hok
      have hdone : a2.is_completed = true := by
        rw [← ha2]
      constructor <;> simp [submit_attempt, scores_after, hdone]

/-- Witness for C7: a concrete already-completed attempt is rejected and the
scores are unchanged. -/
theorem submit_attempt_already_completed_witness :
    submit_attempt 1 ⟨1, 1, 1, 0, some 3, some 50, true⟩ ⟨50, 50, 50, 50⟩
        ⟨[], 50⟩ .technical [] 9 = .error .AlreadyCompleted ∧
    scores_after ⟨50, 50, 50, 50⟩
        (submit_attempt 1 ⟨1, 1, 1, 0, some 3, some 50, true⟩ ⟨50, 50, 50, 50⟩
          ⟨[], 50⟩ .technical [] 9) = ⟨50, 50, 50, 50⟩ :=
  (submit_attempt_already_completed 1 ⟨1, 1, 1, 0, some 3, some 50, true⟩
    ⟨50, 50, 50, 50⟩ ⟨[], 50⟩ .technical [] 9).1 (by decide)
end FWR
